import Mathlib

/-!
Shallow embedding of the GitHub API client in `src/api/github.py`
(class `Github` with operations `pulls`, `user`, `repo`, `repo_list`).

HTTP is mocked: each operation takes an environment describing the
responses the remote would give, and returns the Python-level outcome
(an `Except` over the raised exception kinds) together with the list of
HTTP requests the operation issued, in order.  The `while True` pagination
loop of `repo_list` is given an explicit fuel bounding the number of
iterations; a `none` first component means the loop did not terminate
within the fuel.
-/

namespace GithubClient

/-- Python f-string rendering of an optional string: `None` prints as the
literal text "None", which is exactly what `f"token {token}"` produces when
`token is None`. -/
def pyStrOfOpt : Option String → String
  | some s => s
  | none => "None"

/-- ASCII fragment of Python `str.lower`, characterwise.  Every string the
client compares after lowering is ASCII, where Python and this definition
agree. -/
def pyLowerChar (c : Char) : Char :=
  if 65 ≤ c.toNat ∧ c.toNat ≤ 90 then Char.ofNat (c.toNat + 32) else c

/-- Python `s.lower()` on the ASCII fragment. -/
def pyLower (s : String) : String :=
  String.mk (s.data.map pyLowerChar)

/-- Python slice `s[:-1]`: drop the final character (the empty string stays
empty, as in Python). -/
def pySliceDropLast (s : String) : String :=
  String.mk s.data.dropLast

/-- Result of Python `datetime.fromisoformat`: a naive or offset-aware
timestamp. -/
structure PyDatetime where
  year : Nat
  month : Nat
  day : Nat
  hour : Nat
  minute : Nat
  second : Nat
  utcOffsetMinutes : Option Int
deriving DecidableEq, Repr

/-- Value of an ASCII digit character, `none` on anything else. -/
def digit? (c : Char) : Option Nat :=
  if 48 ≤ c.toNat ∧ c.toNat ≤ 57 then some (c.toNat - 48) else none

/-- Two-digit decimal number. -/
def num2 (a b : Char) : Option Nat :=
  match digit? a, digit? b with
  | some x, some y => some (x * 10 + y)
  | _, _ => none

/-- Four-digit decimal number. -/
def num4 (a b c d : Char) : Option Nat :=
  match num2 a b, num2 c d with
  | some x, some y => some (x * 100 + y)
  | _, _ => none

/-- Gregorian leap-year rule, as used by Python `datetime`. -/
def isLeapYear (y : Nat) : Bool :=
  (y % 4 == 0 && y % 100 != 0) || y % 400 == 0

/-- Number of days of a month, as validated by Python `datetime`. -/
def daysInMonth (y m : Nat) : Nat :=
  if m = 2 then (if isLeapYear y then 29 else 28)
  else if m = 4 ∨ m = 6 ∨ m = 9 ∨ m = 11 then 30
  else 31

/-- Date-field validation of Python `datetime`. -/
def validDate (y m d : Nat) : Bool :=
  decide (1 ≤ y ∧ y ≤ 9999 ∧ 1 ≤ m ∧ m ≤ 12 ∧ 1 ≤ d ∧ d ≤ daysInMonth y m)

/-- Time-field validation of Python `datetime`. -/
def validTime (h mi s : Nat) : Bool :=
  decide (h ≤ 23 ∧ mi ≤ 59 ∧ s ≤ 59)

/-- Build a validated timestamp, `none` when a field is out of range (a
`ValueError` in Python). -/
def mkPyDatetime (y mo d h mi s : Nat) (off : Option Int) : Option PyDatetime :=
  if validDate y mo d && validTime h mi s then
    some { year := y, month := mo, day := d, hour := h, minute := mi,
           second := s, utcOffsetMinutes := off }
  else none

/-- Parse the optional trailing UTC-offset part `±HH:MM` of an ISO string;
`some none` means a well-formed string with no offset. -/
def parseOffset : List Char → Option (Option Int)
  | [] => some none
  | [sg, o1, o2, c, o3, o4] =>
    if c = ':' then
      match num2 o1 o2, num2 o3 o4 with
      | some oh, some om =>
        if decide (oh ≤ 23 ∧ om ≤ 59) then
          if sg = '+' then some (some ((oh * 60 + om : Nat) : Int))
          else if sg = '-' then some (some (-((oh * 60 + om : Nat) : Int)))
          else none
        else none
      | _, _ => none
    else none
  | _ => none

/-- Model of Python `datetime.fromisoformat`, restricted to the format
family reachable through this client: `YYYY-MM-DD`, optionally followed by
a one-character separator, `HH:MM:SS`, and an optional `±HH:MM` offset.
`none` models the `ValueError` Python raises on anything else. -/
def fromisoformat (s : String) : Option PyDatetime :=
  match s.data with
  | [y1, y2, y3, y4, c1, m1, m2, c2, d1, d2] =>
    if c1 = '-' ∧ c2 = '-' then
      match num4 y1 y2 y3 y4, num2 m1 m2, num2 d1 d2 with
      | some y, some mo, some d => mkPyDatetime y mo d 0 0 0 none
      | _, _, _ => none
    else none
  | y1 :: y2 :: y3 :: y4 :: c1 :: m1 :: m2 :: c2 :: d1 :: d2 :: _sep ::
      h1 :: h2 :: c3 :: i1 :: i2 :: c4 :: s1 :: s2 :: rest =>
    if c1 = '-' ∧ c2 = '-' ∧ c3 = ':' ∧ c4 = ':' then
      match num4 y1 y2 y3 y4, num2 m1 m2, num2 d1 d2,
            num2 h1 h2, num2 i1 i2, num2 s1 s2 with
      | some y, some mo, some d, some h, some mi, some sec =>
        match parseOffset rest with
        | some off => mkPyDatetime y mo d h mi sec off
        | none => none
      | _, _, _, _, _, _ => none
    else none
  | _ => none

/-- A Python `requests` header mapping, as an association list. -/
abbrev Headers := List (String × String)

/-- The client object built by `Github.__init__`: base url plus the headers
dict.  Headers are optional because every request site tests
`self.headers == None` (a branch that is in fact dead, see `Github.init`). -/
structure Github where
  url : String
  headers : Option Headers
deriving DecidableEq, Repr

/-- `Github.__init__(token)`: the base URL is fixed and the Authorization
header is always built, interpolating an absent token as the literal text
"None". -/
def Github.init (token : Option String) : Github :=
  { url := "https://api.github.com/",
    headers := some [("Authorization", "token " ++ pyStrOfOpt token)] }

/-- The exception kinds the client raises. -/
inductive PyError where
  | valueError (msg : String)
  | runtimeError (msg : String)
  | typeError (msg : String)
deriving DecidableEq, Repr

/-- Which endpoint a request targets, with the parameters interpolated into
the URL (see `Github.reqUrl` for the exact URL text the source builds). -/
inductive ReqTarget where
  | pullsUrl (repo state : String)
  | userUrl (username : String)
  | repoUrl (repo : String)
  | reposPage (org : String) (page : Nat)
  | repoTopics (fullName : String)
deriving DecidableEq, Repr

/-- One issued HTTP GET request: target plus the headers passed to
`requests.get` (`none` when the code takes its headerless branch). -/
structure Request where
  target : ReqTarget
  headers : Option Headers
deriving DecidableEq, Repr

/-- The exact URL string the source builds for each request target. -/
def Github.reqUrl (g : Github) : ReqTarget → String
  | .pullsUrl repo state => g.url ++ "repos/" ++ repo ++ "/pulls?state=" ++ state
  | .userUrl username => g.url ++ "users/" ++ username
  | .repoUrl repo => g.url ++ "repos/" ++ repo
  | .reposPage org page =>
      g.url ++ "users/" ++ org ++ "/repos?per_page=100&page=" ++ toString page
  | .repoTopics fullName => g.url ++ "repos/" ++ fullName ++ "/topics"

/-- `requests.Response.ok`: true unless the status is a 4xx or 5xx
client/server error code. -/
def respOk (status : Nat) : Bool :=
  !decide (400 ≤ status ∧ status < 600)

/-- The `user` object inside a pull-request JSON item. -/
structure PullUser where
  login : String
deriving DecidableEq, Repr

/-- One label object inside a pull-request JSON item. -/
structure Label where
  name : String
deriving DecidableEq, Repr

/-- One element of the pull-request JSON array, restricted to the fields the
code reads. -/
structure PullItem where
  user : PullUser
  labels : List Label
  created_at : String
deriving DecidableEq, Repr

/-- The record `pulls` builds for each item. -/
structure PullRecord where
  username : String
  labels : List String
  created_at : PyDatetime
deriving DecidableEq, Repr

/-- A mocked response to the pulls request: HTTP status, the JSON array the
success path consumes, and the body `message` field the error path
consumes. -/
structure PullsEnv where
  status : Nat
  items : List PullItem
  message : String

/-- The `VALID_STATES` set of the source. -/
def VALID_STATES : List String := ["all", "open", "closed"]

/-- Body of the per-item loop in `pulls`: project `user.login`, the label
names in order, and the parsed `created_at`; parsing failure is the
`ValueError` from `datetime.fromisoformat`.  The parse input is the source
expression `data[index]["created_at"][:-1] + "+00:00"`. -/
def projectPull (item : PullItem) : Except PyError PullRecord :=
  match fromisoformat (pySliceDropLast item.created_at ++ "+00:00") with
  | some dt =>
    .ok { username := item.user.login,
          labels := item.labels.map Label.name,
          created_at := dt }
  | none =>
    .error (.valueError ("Invalid isoformat string: " ++
      pySliceDropLast item.created_at ++ "+00:00"))

/-- The `for index in range(len(data))` loop of `pulls`: transform items in
order; the first failing item aborts the whole call. -/
def pullsTransform : List PullItem → Except PyError (List PullRecord)
  | [] => .ok []
  | item :: rest =>
    match projectPull item with
    | .error e => .error e
    | .ok r =>
      match pullsTransform rest with
      | .error e => .error e
      | .ok rs => .ok (r :: rs)

/-- `Github.pulls(repo, state)`. -/
def Github.pulls (g : Github) (env : PullsEnv) (repo state : String) :
    Except PyError (List PullRecord) × List Request :=
  let st := pyLower state
  if !VALID_STATES.contains st then
    (.error (.valueError "state: state must be one of all, open, closed"), [])
  else
    let req : Request := { target := .pullsUrl repo st, headers := g.headers }
    if respOk env.status then
      match pullsTransform env.items with
      | .ok recs => (.ok recs, [req])
      | .error e => (.error e, [req])
    else
      (.error (.runtimeError ("Error " ++ toString env.status ++ ": " ++ env.message)),
       [req])

/-- A mocked response to the user request, restricted to the fields read. -/
structure UserEnv where
  status : Nat
  login : String
  name : Option String
  avatar_url : String
  html_url : String
  message : String

/-- The record `user` returns. -/
structure UserInfo where
  username : String
  name : Option String
  avatar_url : String
  url : String
deriving DecidableEq, Repr

/-- `Github.user(username)`. -/
def Github.user (g : Github) (env : UserEnv) (username : String) :
    Except PyError UserInfo × List Request :=
  let req : Request := { target := .userUrl username, headers := g.headers }
  if respOk env.status then
    (.ok { username := env.login, name := env.name,
           avatar_url := env.avatar_url, url := env.html_url }, [req])
  else
    (.error (.runtimeError ("Error " ++ toString env.status ++ ": " ++ env.message)),
     [req])

/-- A mocked response to the repo request, restricted to the fields read. -/
structure RepoEnv where
  status : Nat
  name : String
  full_name : String
  description : Option String
  html_url : String
  clone_url : String
  message : String

/-- The record `repo` returns. -/
structure RepoInfo where
  name : String
  full_name : String
  description : Option String
  url : String
  clone_url : String
deriving DecidableEq, Repr

/-- `Github.repo(repo)`. -/
def Github.repo (g : Github) (env : RepoEnv) (r : String) :
    Except PyError RepoInfo × List Request :=
  let req : Request := { target := .repoUrl r, headers := g.headers }
  if respOk env.status then
    (.ok { name := env.name, full_name := env.full_name,
           description := env.description, url := env.html_url,
           clone_url := env.clone_url }, [req])
  else
    (.error (.runtimeError ("Error " ++ toString env.status ++ ": " ++ env.message)),
     [req])

/-- One element of a repository-listing page, restricted to the field the
code reads. -/
structure RepoItem where
  full_name : String
deriving DecidableEq, Repr

/-- A mocked remote for `repo_list`: for each page number the status and
JSON body of the pagination response, and for each repository full name the
status and the `names` field of its topics response.  The code never reads
the two status components; they are carried so that this independence is
provable. -/
structure RepoListEnv where
  pageStatus : Nat → Nat
  pageBody : Nat → List RepoItem
  topicsStatus : String → Nat
  topicsNames : String → List String

/-- Python `set(topics).issubset(set(names))`, on the list representations:
every element of `topics` occurs in `names`. -/
def issubset (topics names : List String) : Bool :=
  topics.all fun t => names.contains t

/-- The `for repo in repo_data` loop body of `repo_list`: for each
repository, fetch its topic names and keep its full name when the requested
topics are a subset.  A `none` topics argument reproduces Python
`set(None)`, a `TypeError` raised at the first repository's filter, after
that repository's topics request was already issued. -/
def Github.repoListPage (g : Github) (env : RepoListEnv)
    (topics : Option (List String)) :
    List RepoItem → Except PyError (List String) × List Request
  | [] => (.ok [], [])
  | item :: rest =>
    let req : Request := { target := .repoTopics item.full_name, headers := g.headers }
    let names := env.topicsNames item.full_name
    match topics with
    | none => (.error (.typeError "NoneType object is not iterable"), [req])
    | some ts =>
      match g.repoListPage env (some ts) rest with
      | (.ok acc, reqs) =>
        (.ok (if issubset ts names then item.full_name :: acc else acc), req :: reqs)
      | (.error e, reqs) => (.error e, req :: reqs)

/-- The `while True` pagination loop of `repo_list`, with fuel bounding the
number of iterations.  `none` in the first component means the loop has not
terminated within the fuel. -/
def Github.repoListLoop (g : Github) (env : RepoListEnv) (org : String)
    (topics : Option (List String)) :
    Nat → Nat → List String → Option (Except PyError (List String)) × List Request
  | 0, _, _ => (none, [])
  | fuel + 1, page, repos =>
    let pageReq : Request := { target := .reposPage org page, headers := g.headers }
    let repoData := env.pageBody page
    if repoData = [] then
      (some (.ok repos), [pageReq])
    else
      match g.repoListPage env topics repoData with
      | (.ok found, reqs) =>
        let next := g.repoListLoop env org topics fuel (page + 1) (repos ++ found)
        (next.1, pageReq :: (reqs ++ next.2))
      | (.error e, reqs) => (some (.error e), pageReq :: reqs)

/-- `Github.repo_list(org, topics)`: start at page 1 with an empty
accumulator. -/
def Github.repo_list (g : Github) (env : RepoListEnv) (org : String)
    (topics : Option (List String)) (fuel : Nat) :
    Option (Except PyError (List String)) × List Request :=
  g.repoListLoop env org topics fuel 1 []

/-- Concatenation of the page bodies `start, start+1, ..., start+count-1`,
in fetch order: the repositories a terminating run considers. -/
def pagesConcat (env : RepoListEnv) (start count : Nat) : List RepoItem :=
  match count with
  | 0 => []
  | c + 1 => env.pageBody start ++ pagesConcat env (start + 1) c

/-- The filter predicate of the claim: the requested topics are a subset of
the repository's topic-name set. -/
def matchesTopics (env : RepoListEnv) (topics : List String) (r : RepoItem) : Bool :=
  issubset topics (env.topicsNames r.full_name)

/-- Page numbers of the pagination requests of a trace, in order. -/
def pageReqNums : List Request → List Nat
  | [] => []
  | r :: l =>
    match r.target with
    | .reposPage _ n => n :: pageReqNums l
    | _ => pageReqNums l

/-- Repository full names of the topics requests of a trace, in order. -/
def topicsReqNames : List Request → List String
  | [] => []
  | r :: l =>
    match r.target with
    | .repoTopics s => s :: topicsReqNames l
    | _ => topicsReqNames l

/-- Whether a `repo_list` outcome is a raised Remote Request Error
(`RuntimeError`). -/
def isRemoteError : Option (Except PyError (List String)) → Bool
  | some (.error (.runtimeError _)) => true
  | _ => false

/-- A client holding a token, used by concrete evaluations. -/
def gTok : Github := Github.init (some "sometoken")

/-- A mocked 304 Not Modified pulls response with an empty JSON array. -/
def envPulls304 : PullsEnv := { status := 304, items := [], message := "Not Modified" }

/-- A mocked 404 pulls response. -/
def envPulls404 : PullsEnv := { status := 404, items := [], message := "Not Found" }

/-- A mocked 404 user response. -/
def envUser404 : UserEnv :=
  { status := 404, login := "", name := none, avatar_url := "", html_url := "",
    message := "Not Found" }

/-- A mocked 404 repo response. -/
def envRepo404 : RepoEnv :=
  { status := 404, name := "", full_name := "", description := none,
    html_url := "", clone_url := "", message := "Not Found" }

/-- A mocked successful pulls response with two items. -/
def envPullsOk : PullsEnv :=
  { status := 200,
    items := [{ user := { login := "alice" },
                labels := [{ name := "bug" }, { name := "prio" }],
                created_at := "2023-01-01T12:00:00Z" },
              { user := { login := "bob" },
                labels := [],
                created_at := "2023-05-02T08:30:10Z" }],
    message := "" }

/-- Mocked remote for the topic-filter evaluations: page 1 holds two
repositories, every later page is empty; `o/a` exposes topics
{cli, tool}, every other repository exposes {tool}. -/
def envC1 : RepoListEnv :=
  { pageStatus := fun _ => 200,
    pageBody := fun n =>
      if n = 1 then [{ full_name := "o/a" }, { full_name := "o/b" }] else [],
    topicsStatus := fun _ => 200,
    topicsNames := fun s => if s = "o/a" then ["cli", "tool"] else ["tool"] }

/-- Mocked remote for the pagination evaluations: non-empty pages 1 and 2,
page 3 empty. -/
def envC2 : RepoListEnv :=
  { pageStatus := fun _ => 200,
    pageBody := fun n =>
      if n = 1 then [{ full_name := "o/a" }]
      else if n = 2 then [{ full_name := "o/b" }]
      else [],
    topicsStatus := fun _ => 200,
    topicsNames := fun _ => ["cli"] }

/-- Mocked remote with all-success statuses. -/
def envC9a : RepoListEnv :=
  { pageStatus := fun _ => 200,
    pageBody := fun n => if n = 1 then [{ full_name := "o/a" }] else [],
    topicsStatus := fun _ => 200,
    topicsNames := fun _ => ["cli"] }

/-- The same bodies as `envC9a` with failing statuses everywhere. -/
def envC9b : RepoListEnv :=
  { pageStatus := fun _ => 500,
    pageBody := fun n => if n = 1 then [{ full_name := "o/a" }] else [],
    topicsStatus := fun _ => 403,
    topicsNames := fun _ => ["cli"] }

/-- C4: for every `state` whose lower-casing is not one of all/open/closed,
`pulls` raises `ValueError` (Invalid Argument) and issues no HTTP request,
for every client, mocked response and repo. -/
theorem pulls_invalid_state (g : Github) (env : PullsEnv) (repo state : String)
    (h : VALID_STATES.contains (pyLower state) = false) :
    g.pulls env repo state =
      (.error (.valueError "state: state must be one of all, open, closed"), []) := by
  have h' : pyLower state ∉ VALID_STATES := by simpa using h
  simp [Github.pulls, h']

/-- C4 witness: the state "invalid" is rejected with an empty request trace. -/
theorem pulls_invalid_state_witness :
    VALID_STATES.contains (pyLower "invalid") = false ∧
    gTok.pulls envPulls404 "octo/repo" "invalid" =
      (.error (.valueError "state: state must be one of all, open, closed"), []) :=
  ⟨by decide, pulls_invalid_state gTok envPulls404 "octo/repo" "invalid" (by decide)⟩

/-- C3, evaluated at the failing input: a client constructed without a token
still carries an Authorization header on the requests it issues, with the
literal value "token None", instead of sending no header (the
`self.headers == None` branches of the source are dead). -/
theorem auth_header_always_present :
    (Github.init none).headers = some [("Authorization", "token None")] ∧
    ((Github.init none).pulls envPulls404 "octo/repo" "all").2 =
      [{ target := .pullsUrl "octo/repo" "all",
         headers := some [("Authorization", "token None")] }] :=
  ⟨rfl, rfl⟩

/-- C5 counterexample: the status 304 is not 2xx, yet `pulls` returns a
success result instead of raising a Remote Request Error, because the code
treats every status below 400 (`response.ok`) as success. -/
theorem pulls_non2xx_counterexample :
    (300 ≤ 304 ∨ 304 < 200) ∧
    (gTok.pulls envPulls304 "octo/repo" "all").1 = .ok [] :=
  ⟨Or.inl (by decide), rfl⟩

/-- C5 (amended): for every response whose status is a 4xx or 5xx error
code, each of pulls, user and repo raises a RuntimeError carrying the
status code and the body message field; statuses below 400 (such as 304)
are instead processed as success. -/
theorem non_success_raises (g : Github) (envP : PullsEnv) (envU : UserEnv)
    (envR : RepoEnv) (repo state username rname : String)
    (hstate : VALID_STATES.contains (pyLower state) = true)
    (hP : 400 ≤ envP.status ∧ envP.status < 600)
    (hU : 400 ≤ envU.status ∧ envU.status < 600)
    (hR : 400 ≤ envR.status ∧ envR.status < 600) :
    (g.pulls envP repo state).1 =
      .error (.runtimeError ("Error " ++ toString envP.status ++ ": " ++ envP.message)) ∧
    (g.user envU username).1 =
      .error (.runtimeError ("Error " ++ toString envU.status ++ ": " ++ envU.message)) ∧
    (g.repo envR rname).1 =
      .error (.runtimeError ("Error " ++ toString envR.status ++ ": " ++ envR.message)) := by
  have okP : respOk envP.status = false := by simp [respOk]; omega
  have okU : respOk envU.status = false := by simp [respOk]; omega
  have okR : respOk envR.status = false := by simp [respOk]; omega
  have hm : pyLower state ∈ VALID_STATES := by simpa using hstate
  refine ⟨?_, ?_, ?_⟩
  · simp [Github.pulls, hm, okP]
  · simp [Github.user, okU]
  · simp [Github.repo, okR]

/-- C5 witness: a 404 response raises Error 404 with the body message for
all three operations. -/
theorem non_success_raises_witness :
    ((Github.init none).pulls envPulls404 "octo/repo" "all").1 =
      .error (.runtimeError "Error 404: Not Found") ∧
    ((Github.init none).user envUser404 "octocat").1 =
      .error (.runtimeError "Error 404: Not Found") ∧
    ((Github.init none).repo envRepo404 "octo/repo").1 =
      .error (.runtimeError "Error 404: Not Found") := by
  have h := non_success_raises (Github.init none) envPulls404 envUser404 envRepo404
    "octo/repo" "all" "octocat" "octo/repo" (by decide) (by decide) (by decide) (by decide)
  exact h

/-- Helper: when every item's `created_at` parses, the transformation loop
succeeds and relates input items to output records pointwise in order. -/
theorem pullsTransform_ok (items : List PullItem)
    (h : ∀ item ∈ items,
      (fromisoformat (pySliceDropLast item.created_at ++ "+00:00")).isSome) :
    ∃ recs, pullsTransform items = .ok recs ∧
      List.Forall₂ (fun (r : PullRecord) (item : PullItem) =>
        r.username = item.user.login ∧ r.labels = item.labels.map Label.name)
        recs items := by
  induction items with
  | nil => exact ⟨[], rfl, List.Forall₂.nil⟩
  | cons item rest ih =>
    have h1 := h item (by simp)
    obtain ⟨dt, hdt⟩ := Option.isSome_iff_exists.mp h1
    obtain ⟨recs, hr, hf⟩ := ih (fun i hi => h i (by simp [hi]))
    refine ⟨{ username := item.user.login, labels := item.labels.map Label.name,
              created_at := dt } :: recs, ?_, List.Forall₂.cons ⟨rfl, rfl⟩ hf⟩
    simp [pullsTransform, projectPull, hdt, hr]

/-- C6: for every successful pull-request response, `pulls` returns exactly
as many records as there are items, in the same order, each record's
username being the item's `user.login` and its labels the ordered list of
the item's label names. -/
theorem pulls_roundtrip (g : Github) (env : PullsEnv) (repo state : String)
    (hstate : VALID_STATES.contains (pyLower state) = true)
    (hok : respOk env.status = true)
    (hparse : ∀ item ∈ env.items,
      (fromisoformat (pySliceDropLast item.created_at ++ "+00:00")).isSome) :
    ∃ recs, (g.pulls env repo state).1 = .ok recs ∧
      recs.length = env.items.length ∧
      List.Forall₂ (fun (r : PullRecord) (item : PullItem) =>
        r.username = item.user.login ∧ r.labels = item.labels.map Label.name)
        recs env.items := by
  obtain ⟨recs, hr, hf⟩ := pullsTransform_ok env.items hparse
  have hm : pyLower state ∈ VALID_STATES := by simpa using hstate
  exact ⟨recs, by simp [Github.pulls, hm, hok, hr], hf.length_eq, hf⟩

/-- C6 witness: a two-item successful response round-trips to two records
with matching usernames and ordered label names. -/
theorem pulls_roundtrip_witness :
    ∃ recs, (gTok.pulls envPullsOk "octo/repo" "all").1 = .ok recs ∧
      recs.length = envPullsOk.items.length ∧
      List.Forall₂ (fun (r : PullRecord) (item : PullItem) =>
        r.username = item.user.login ∧ r.labels = item.labels.map Label.name)
        recs envPullsOk.items :=
  pulls_roundtrip gTok envPullsOk "octo/repo" "all" (by decide) (by decide)
    (by intro item hi; fin_cases hi <;> decide)

/-- C7: `pulls` parses `created_at` by dropping the final character of the
string and appending "+00:00": on the input "2023-01-01T12:00:00Z" the
intermediate string is "2023-01-01T12:00:00+00:00" and the returned record
carries the UTC timestamp 2023-01-01 12:00:00 +00:00. -/
theorem pulls_created_at_parse :
    pySliceDropLast "2023-01-01T12:00:00Z" ++ "+00:00" = "2023-01-01T12:00:00+00:00" ∧
    (gTok.pulls
      { status := 200,
        items := [{ user := { login := "alice" }, labels := [],
                    created_at := "2023-01-01T12:00:00Z" }],
        message := "" } "octo/repo" "all").1 =
      .ok [{ username := "alice", labels := [],
             created_at := { year := 2023, month := 1, day := 1, hour := 12,
                             minute := 0, second := 0, utcOffsetMinutes := some 0 } }] :=
  ⟨rfl, rfl⟩

/-- C8: for every state whose lower-casing is one of the valid values,
`pulls` behaves identically, in outcome and in issued request, to the call
with the lower-cased state. -/
theorem pulls_state_case_insensitive (g : Github) (env : PullsEnv)
    (repo state : String)
    (hvalid : VALID_STATES.contains (pyLower state) = true) :
    g.pulls env repo state = g.pulls env repo (pyLower state) := by
  have hm : pyLower state ∈ VALID_STATES := by
    simpa using hvalid
  have hid : pyLower (pyLower state) = pyLower state := by
    simp only [VALID_STATES, List.mem_cons, List.not_mem_nil, or_false] at hm
    rcases hm with h | h | h <;> rw [h] <;> decide
  simp only [Github.pulls, hid]

/-- C8 witness: the mixed-case state "OPEN" behaves like its lower-cased
form. -/
theorem pulls_state_case_insensitive_witness :
    VALID_STATES.contains (pyLower "OPEN") = true ∧
    gTok.pulls envPullsOk "octo/repo" "OPEN" =
      gTok.pulls envPullsOk "octo/repo" (pyLower "OPEN") :=
  ⟨by decide, pulls_state_case_insensitive gTok envPullsOk "octo/repo" "OPEN" (by decide)⟩

/-- Helper: with a real topics list the per-page loop filters the page by
the subset test, keeps full names in order, and issues one topics request
per repository of the page. -/
theorem repoListPage_some (g : Github) (env : RepoListEnv) (ts : List String) :
    ∀ items : List RepoItem,
      g.repoListPage env (some ts) items =
        (.ok ((items.filter (matchesTopics env ts)).map RepoItem.full_name),
         items.map fun r =>
           ({ target := ReqTarget.repoTopics r.full_name, headers := g.headers } : Request)) := by
  intro items
  induction items with
  | nil => rfl
  | cons item rest ih =>
    simp only [Github.repoListPage, ih, List.filter_cons, List.map_cons, matchesTopics]
    by_cases h : issubset ts (env.topicsNames item.full_name) = true
    · simp [h]
    · simp [h]

/-- Helper: a run whose first empty page is page `N` returns the
accumulator extended by the filtered full names of pages `page ... N-1`. -/
theorem repoListLoop_some_spec (g : Github) (env : RepoListEnv) (org : String)
    (ts : List String) (N : Nat) (hN : env.pageBody N = []) :
    ∀ fuel page repos, page ≤ N → N < page + fuel →
      (∀ n, page ≤ n → n < N → env.pageBody n ≠ []) →
      (g.repoListLoop env org (some ts) fuel page repos).1 =
        some (.ok (repos ++ ((pagesConcat env page (N - page)).filter
          (matchesTopics env ts)).map RepoItem.full_name)) := by
  intro fuel
  induction fuel with
  | zero =>
    intro page repos h1 h2 h3
    omega
  | succ f ih =>
    intro page repos h1 h2 h3
    by_cases hpage : page = N
    · subst hpage
      simp [Github.repoListLoop, hN, Nat.sub_self, pagesConcat]
    · have hlt : page < N := lt_of_le_of_ne h1 hpage
      have hbody : env.pageBody page ≠ [] := h3 page le_rfl hlt
      have hcount : N - page = (N - (page + 1)) + 1 := by omega
      have ih' := ih (page + 1)
        (repos ++ ((env.pageBody page).filter (matchesTopics env ts)).map RepoItem.full_name)
        hlt (by omega) (fun n hn hn2 => h3 n (by omega) hn2)
      simp only [Github.repoListLoop, if_neg hbody, repoListPage_some]
      rw [hcount]
      simp [ih', pagesConcat, List.filter_append, List.map_append, List.append_assoc]

/-- Helper: `pageReqNums` distributes over append. -/
theorem pageReqNums_append (l1 l2 : List Request) :
    pageReqNums (l1 ++ l2) = pageReqNums l1 ++ pageReqNums l2 := by
  induction l1 with
  | nil => rfl
  | cons r l ih =>
    simp only [List.cons_append, pageReqNums]
    cases r.target <;> simp [ih]

/-- Helper: `topicsReqNames` distributes over append. -/
theorem topicsReqNames_append (l1 l2 : List Request) :
    topicsReqNames (l1 ++ l2) = topicsReqNames l1 ++ topicsReqNames l2 := by
  induction l1 with
  | nil => rfl
  | cons r l ih =>
    simp only [List.cons_append, topicsReqNames]
    cases r.target <;> simp [ih]

/-- Helper: topics requests contribute no page numbers to a trace. -/
theorem pageReqNums_topicsMap (hs : Option Headers) (items : List RepoItem) :
    pageReqNums (items.map fun r =>
      ({ target := ReqTarget.repoTopics r.full_name, headers := hs } : Request)) = [] := by
  induction items with
  | nil => rfl
  | cons a l ih => simpa [pageReqNums] using ih

/-- Helper: the topics requests of a page list are exactly its full names. -/
theorem topicsReqNames_topicsMap (hs : Option Headers) (items : List RepoItem) :
    topicsReqNames (items.map fun r =>
      ({ target := ReqTarget.repoTopics r.full_name, headers := hs } : Request)) =
      items.map RepoItem.full_name := by
  induction items with
  | nil => rfl
  | cons a l ih => simpa [topicsReqNames] using ih

/-- Helper: the trace of a terminating run requests pages
`page, page+1, ..., N` in order and the topics of every repository of the
non-empty pages, in fetch order. -/
theorem repoListLoop_trace_spec (g : Github) (env : RepoListEnv) (org : String)
    (ts : List String) (N : Nat) (hN : env.pageBody N = []) :
    ∀ fuel page repos, page ≤ N → N < page + fuel →
      (∀ n, page ≤ n → n < N → env.pageBody n ≠ []) →
      pageReqNums (g.repoListLoop env org (some ts) fuel page repos).2 =
        List.range' page (N - page + 1) ∧
      topicsReqNames (g.repoListLoop env org (some ts) fuel page repos).2 =
        (pagesConcat env page (N - page)).map RepoItem.full_name := by
  intro fuel
  induction fuel with
  | zero =>
    intro page repos h1 h2 h3
    omega
  | succ f ih =>
    intro page repos h1 h2 h3
    by_cases hpage : page = N
    · subst hpage
      constructor
      · simp [Github.repoListLoop, hN, Nat.sub_self, pageReqNums, List.range'_one]
      · simp [Github.repoListLoop, hN, Nat.sub_self, pagesConcat, topicsReqNames]
    · have hlt : page < N := lt_of_le_of_ne h1 hpage
      have hbody : env.pageBody page ≠ [] := h3 page le_rfl hlt
      have hcount : N - page = (N - (page + 1)) + 1 := by omega
      have ih' := ih (page + 1)
        (repos ++ ((env.pageBody page).filter (matchesTopics env ts)).map RepoItem.full_name)
        hlt (by omega) (fun n hn hn2 => h3 n (by omega) hn2)
      have htrace : (g.repoListLoop env org (some ts) (f + 1) page repos).2 =
          ({ target := ReqTarget.reposPage org page, headers := g.headers } : Request) ::
          (((env.pageBody page).map fun r =>
              ({ target := ReqTarget.repoTopics r.full_name, headers := g.headers } : Request)) ++
           (g.repoListLoop env org (some ts) f (page + 1)
             (repos ++ ((env.pageBody page).filter
               (matchesTopics env ts)).map RepoItem.full_name)).2) := by
        simp only [Github.repoListLoop, if_neg hbody, repoListPage_some]
      constructor
      · rw [htrace]
        simp only [pageReqNums, pageReqNums_append, pageReqNums_topicsMap,
          List.nil_append]
        rw [ih'.1, hcount]
        simp [List.range'_succ]
      · rw [htrace]
        simp only [topicsReqNames, topicsReqNames_append, topicsReqNames_topicsMap]
        rw [ih'.2, hcount]
        simp [pagesConcat, List.map_append]

/-- Helper: a trace containing a request for page `n` lists `n` among its
page numbers. -/
theorem mem_pageReqNums_of_mem (trace : List Request) (req : Request)
    (o : String) (n : Nat) (hreq : req ∈ trace)
    (ht : req.target = ReqTarget.reposPage o n) :
    n ∈ pageReqNums trace := by
  induction trace with
  | nil => simp at hreq
  | cons r l ih =>
    rcases List.mem_cons.mp hreq with hr | hr
    · subst hr
      simp [pageReqNums, ht]
    · cases htar : r.target <;> simp [pageReqNums, htar, ih hr]

/-- C1: on a terminating run whose first empty page is page `N`, `repo_list`
returns exactly the full names of the fetched repositories whose topic-name
set includes the requested topics (inclusion iff subset, expressed by
`List.filter`), in first-seen fetch order; and an empty topics set returns
every fetched repository. -/
theorem repo_list_topic_filter (g : Github) (env : RepoListEnv) (org : String)
    (topics : List String) (N fuel : Nat)
    (hN1 : 1 ≤ N) (hN : env.pageBody N = [])
    (hne : ∀ n, 1 ≤ n → n < N → env.pageBody n ≠ [])
    (hfuel : N ≤ fuel) :
    (g.repo_list env org (some topics) fuel).1 =
      some (.ok (((pagesConcat env 1 (N - 1)).filter
        (matchesTopics env topics)).map RepoItem.full_name)) ∧
    (topics = [] →
      (g.repo_list env org (some topics) fuel).1 =
        some (.ok ((pagesConcat env 1 (N - 1)).map RepoItem.full_name))) := by
  have h := repoListLoop_some_spec g env org topics N hN fuel 1 [] hN1 (by omega) hne
  constructor
  · simpa [Github.repo_list] using h
  · intro htop
    subst htop
    have hall : matchesTopics env ([] : List String) = fun _ => true := by
      funext r
      simp [matchesTopics, issubset]
    simpa [Github.repo_list, hall] using h

/-- C1 witness: with topics {"cli"} and two fetched repositories exposing
topic sets {"cli","tool"} and {"tool"}, only the first full name is
returned, in input order; the empty topics set returns both. -/
theorem repo_list_topic_filter_witness :
    (gTok.repo_list envC1 "org" (some ["cli"]) 2).1 = some (.ok ["o/a"]) ∧
    (gTok.repo_list envC1 "org" (some []) 2).1 = some (.ok ["o/a", "o/b"]) := by
  have hne : ∀ n, 1 ≤ n → n < 2 → envC1.pageBody n ≠ [] := by
    intro n hn1 hn2
    have hn : n = 1 := by omega
    subst hn
    decide
  have h1 := repo_list_topic_filter gTok envC1 "org" ["cli"] 2 2 (by omega) rfl hne (by omega)
  have h2 := repo_list_topic_filter gTok envC1 "org" [] 2 2 (by omega) rfl hne (by omega)
  exact ⟨h1.1.trans (by rfl), (h2.2 rfl).trans (by rfl)⟩

/-- C2: with non-empty pages 1 and 2 and an empty page 3, `repo_list`
considers exactly the repositories of pages 1 and 2 (their topics are
fetched and they make up the filtered result), requests exactly pages
1, 2, 3 in that order, and issues no request for page 4. -/
theorem repo_list_pagination (g : Github) (env : RepoListEnv) (org : String)
    (topics : List String) (fuel : Nat)
    (h1 : env.pageBody 1 ≠ []) (h2 : env.pageBody 2 ≠ []) (h3 : env.pageBody 3 = [])
    (hfuel : 3 ≤ fuel) :
    (g.repo_list env org (some topics) fuel).1 =
      some (.ok (((env.pageBody 1 ++ env.pageBody 2).filter
        (matchesTopics env topics)).map RepoItem.full_name)) ∧
    pageReqNums (g.repo_list env org (some topics) fuel).2 = [1, 2, 3] ∧
    topicsReqNames (g.repo_list env org (some topics) fuel).2 =
      (env.pageBody 1 ++ env.pageBody 2).map RepoItem.full_name ∧
    ∀ req ∈ (g.repo_list env org (some topics) fuel).2,
      req.target ≠ ReqTarget.reposPage org 4 := by
  have hne : ∀ n, 1 ≤ n → n < 3 → env.pageBody n ≠ [] := by
    intro n hn1 hn2
    have hn : n = 1 ∨ n = 2 := by omega
    rcases hn with hn | hn <;> subst hn
    · exact h1
    · exact h2
  have hres : (g.repo_list env org (some topics) fuel).1 =
      some (.ok ((([] : List String)) ++ ((pagesConcat env 1 (3 - 1)).filter
        (matchesTopics env topics)).map RepoItem.full_name)) :=
    repoListLoop_some_spec g env org topics 3 h3 fuel 1 [] (by omega) (by omega) hne
  have htr := repoListLoop_trace_spec g env org topics 3 h3 fuel 1 [] (by omega) (by omega) hne
  have htr1 : pageReqNums (g.repo_list env org (some topics) fuel).2 = [1, 2, 3] := by
    have := htr.1
    simpa [Github.repo_list, List.range'] using this
  have hpc : pagesConcat env 1 (3 - 1) = env.pageBody 1 ++ env.pageBody 2 := by
    simp [pagesConcat]
  refine ⟨?_, htr1, ?_, ?_⟩
  · simpa [hpc] using hres
  · have := htr.2
    simpa [Github.repo_list, hpc] using this
  · intro req hreq hcontra
    have hmem : (4 : Nat) ∈ pageReqNums (g.repo_list env org (some topics) fuel).2 :=
      mem_pageReqNums_of_mem _ req org 4 hreq hcontra
    rw [htr1] at hmem
    simp at hmem

/-- C2 witness: with non-empty pages 1 and 2 and an empty page 3, exactly
pages 1, 2, 3 are requested, the two repositories of pages 1 and 2 have
their topics fetched, and both (matching) full names are returned. -/
theorem repo_list_pagination_witness :
    (gTok.repo_list envC2 "org" (some ["cli"]) 3).1 = some (.ok ["o/a", "o/b"]) ∧
    pageReqNums (gTok.repo_list envC2 "org" (some ["cli"]) 3).2 = [1, 2, 3] ∧
    topicsReqNames (gTok.repo_list envC2 "org" (some ["cli"]) 3).2 = ["o/a", "o/b"] := by
  have h := repo_list_pagination gTok envC2 "org" ["cli"] 3 (by decide) (by decide) rfl
    (by omega)
  exact ⟨h.1.trans (by rfl), h.2.1, h.2.2.1.trans (by rfl)⟩

/-- Helper: the per-page loop can raise a `TypeError` (topics `None`) but
never a `RuntimeError`. -/
theorem repoListPage_no_runtime (g : Github) (env : RepoListEnv)
    (topics : Option (List String)) (items : List RepoItem) (m : String) :
    (g.repoListPage env topics items).1 ≠ .error (.runtimeError m) := by
  cases topics with
  | some ts =>
    rw [repoListPage_some]
    simp
  | none =>
    cases items with
    | nil => simp [Github.repoListPage]
    | cons a l => simp [Github.repoListPage]

/-- Helper: no iteration of the pagination loop ever produces a
`RuntimeError` outcome. -/
theorem repoListLoop_no_runtime (g : Github) (env : RepoListEnv) (org : String)
    (topics : Option (List String)) :
    ∀ fuel page repos m,
      (g.repoListLoop env org topics fuel page repos).1 ≠
        some (.error (.runtimeError m)) := by
  intro fuel
  induction fuel with
  | zero =>
    intro page repos m
    simp [Github.repoListLoop]
  | succ f ih =>
    intro page repos m
    simp only [Github.repoListLoop]
    by_cases hb : env.pageBody page = []
    · simp [hb]
    · rw [if_neg hb]
      have hne := repoListPage_no_runtime g env topics (env.pageBody page) m
      rcases hpage : g.repoListPage env topics (env.pageBody page) with ⟨res, reqs⟩
      rw [hpage] at hne
      cases res with
      | ok found => simpa using ih (page + 1) (repos ++ found) m
      | error e =>
        simp only at hne
        simpa using fun hcontra => hne (by rw [hcontra])

/-- Helper: an outcome that is never a `RuntimeError` is not a Remote
Request Error. -/
theorem isRemoteError_eq_false (x : Option (Except PyError (List String)))
    (h : ∀ m, x ≠ some (.error (.runtimeError m))) :
    isRemoteError x = false := by
  rcases x with _ | res
  · rfl
  · rcases res with e | v
    · rcases e with m | m | m
      · rfl
      · exact absurd rfl (h m)
      · rfl
    · rfl

/-- Helper: the per-page loop reads only the topic names of the mocked
remote, never the statuses. -/
theorem repoListPage_env_agree (g : Github) (env env' : RepoListEnv)
    (topics : Option (List String)) (ht : env.topicsNames = env'.topicsNames) :
    ∀ items, g.repoListPage env topics items = g.repoListPage env' topics items := by
  intro items
  induction items with
  | nil => rfl
  | cons item rest ih =>
    cases topics with
    | none => simp [Github.repoListPage, ht]
    | some ts => simp [Github.repoListPage, ht, ih]

/-- Helper: the pagination loop reads only page bodies and topic names,
never the statuses. -/
theorem repoListLoop_env_agree (g : Github) (env env' : RepoListEnv) (org : String)
    (topics : Option (List String)) (hb : env.pageBody = env'.pageBody)
    (ht : env.topicsNames = env'.topicsNames) :
    ∀ fuel page repos,
      g.repoListLoop env org topics fuel page repos =
        g.repoListLoop env' org topics fuel page repos := by
  intro fuel
  induction fuel with
  | zero => intro page repos; rfl
  | succ f ih =>
    intro page repos
    simp only [Github.repoListLoop, hb,
      repoListPage_env_agree g env env' topics ht, ih]

/-- C9: `repo_list` never inspects the HTTP statuses of the pagination or
topics responses: two remotes agreeing on JSON bodies give identical
outcomes and traces whatever their statuses, and the outcome is never a
Remote Request Error. -/
theorem repo_list_ignores_status (g : Github) (env env' : RepoListEnv) (org : String)
    (topics : Option (List String)) (fuel : Nat)
    (hb : env.pageBody = env'.pageBody) (ht : env.topicsNames = env'.topicsNames) :
    g.repo_list env org topics fuel = g.repo_list env' org topics fuel ∧
    isRemoteError (g.repo_list env org topics fuel).1 = false := by
  constructor
  · exact repoListLoop_env_agree g env env' org topics hb ht fuel 1 []
  · exact isRemoteError_eq_false _
      (fun m => repoListLoop_no_runtime g env org topics fuel 1 [] m)

/-- C9 witness: a remote whose every response is a success status and one
whose every response is a failure status, with the same bodies, give the
same `repo_list` behaviour, and no Remote Request Error is raised. -/
theorem repo_list_ignores_status_witness :
    gTok.repo_list envC9a "org" (some ["cli"]) 2 =
      gTok.repo_list envC9b "org" (some ["cli"]) 2 ∧
    isRemoteError (gTok.repo_list envC9a "org" (some ["cli"]) 2).1 = false :=
  repo_list_ignores_status gTok envC9a envC9b "org" (some ["cli"]) 2 rfl rfl

/-- C10: with the `topics` parameter left at its default `None`, a non-empty
first page makes `repo_list` raise `TypeError` at the first repository's
topic filter: the trace stops right after that repository's topics request. -/
theorem repo_list_none_topics_type_error (g : Github) (env : RepoListEnv)
    (org : String) (fuel : Nat) (r : RepoItem) (rest : List RepoItem)
    (h1 : env.pageBody 1 = r :: rest) (hfuel : 1 ≤ fuel) :
    (g.repo_list env org none fuel).1 =
      some (.error (.typeError "NoneType object is not iterable")) ∧
    (g.repo_list env org none fuel).2 =
      [{ target := .reposPage org 1, headers := g.headers },
       { target := .repoTopics r.full_name, headers := g.headers }] := by
  obtain ⟨k, hk⟩ : ∃ k, fuel = k + 1 := ⟨fuel - 1, by omega⟩
  subst hk
  constructor <;>
  · simp only [Github.repo_list, Github.repoListLoop, h1]
    rw [if_neg (by simp)]
    simp [Github.repoListPage]

/-- C10 witness: on a remote whose first page holds two repositories, the
omitted-topics call fails with `TypeError` right after the first
repository's topics request. -/
theorem repo_list_none_topics_type_error_witness :
    (gTok.repo_list envC1 "org" none 5).1 =
      some (.error (.typeError "NoneType object is not iterable")) ∧
    (gTok.repo_list envC1 "org" none 5).2 =
      [{ target := .reposPage "org" 1, headers := gTok.headers },
       { target := .repoTopics "o/a", headers := gTok.headers }] :=
  repo_list_none_topics_type_error gTok envC1 "org" 5 { full_name := "o/a" }
    [{ full_name := "o/b" }] rfl (by omega)

end GithubClient
